import Mathlib

set_option autoImplicit false

namespace Pointercrate

/-- Status of a record (`RecordStatus`, model/record.rs is not under src/; the exact
tri-state is given by the spec and by the uses in actor/database.rs). -/
inductive RecordStatus where
  | Submitted
  | Approved
  | Rejected
deriving DecidableEq, Repr

/-- Errors of the core (`PointercrateError`, error.rs is not under src/; the variants and
their payloads are taken from their construction sites in src/ and the spec error list).
Permission sets are lists of permission bitmasks, video-validation errors are collected
under `InvalidUrl`, and opaque wrapped storage failures under `DatabaseError`. -/
inductive PointercrateError where
  | Unauthorized
  | MissingPermissions (required : List Nat)
  | PreconditionFailed
  | InvalidState (message : String)
  | ModelNotFound (model : String) (identifiedBy : String)
  | DatabaseConnectionError
  | DatabaseError
  | BannedFromSubmissions
  | PlayerBanned
  | SubmitLegacy
  | Non100Extended
  | InvalidProgress (requirement : Int)
  | SubmissionExists (status : RecordStatus) (existing : Int)
  | InvalidUrl (message : String)
deriving DecidableEq, Repr

/-- Permission capability bit for list moderators (permissions.rs is not under src/; the
concrete bit values are irrelevant to the embedded operations, only distinctness is). -/
def Permissions.ListModerator : Nat := 4

/-- Permission capability bit for list administrators. -/
def Permissions.ListAdministrator : Nat := 8

/-- User model (model/user.rs is not under src/): of its fields only the permission
bitmask `permissions()` is consumed by the embedded operations. -/
structure User where
  permissions : Nat
deriving DecidableEq, Repr

/-- Modelled from the spec: the concurrency precondition token (`IfMatch`,
middleware/cond.rs is not under src/). It carries the hashes the client supplied; the
token is met exactly when the freshly computed entity hash is among them. -/
structure IfMatch where
  hashes : List Nat
deriving DecidableEq, Repr

/-- Token test of the precondition: membership of the hash among the supplied ones. -/
def IfMatch.met (im : IfMatch) (hash : Nat) : Bool :=
  im.hashes.contains hash

/-- Request context (context.rs, `RequestContext`). The borrowed connection handle and
the client IP carry no behavior relevant to the embedded operations and are not
modelled; storage state is threaded explicitly through the operations instead. -/
inductive RequestContext where
  | Internal
  | External (user : Option User) (ifMatch : Option IfMatch)
deriving DecidableEq, Repr

/-- Modelled from the spec: `Me::has_any` (model/user.rs, not under src/) — "an actor's
granted set must intersect the operation's required set for authorization to succeed
(ANY of required, not ALL)". An alternative of the set is granted when all of its bits
are granted. -/
def hasAny (granted : Nat) (required : List Nat) : Bool :=
  required.any (fun p => granted &&& p == p)

/-- Permission gate (context.rs lines 88-103, `RequestContext::check_permissions`). -/
def RequestContext.check_permissions (ctx : RequestContext) (permissions : List Nat) :
    Except PointercrateError Unit :=
  if permissions.isEmpty then .ok ()
  else
    match ctx with
    | .External none _ => .error .Unauthorized
    | .External (some user) _ =>
      if !hasAny user.permissions permissions then .error (.MissingPermissions permissions)
      else .ok ()
    | .Internal => .ok ()

/-- Precondition gate (context.rs lines 116-134, `RequestContext::check_if_match`). The
`DefaultHasher` run over the entity is modelled by passing the computed hash value. -/
def RequestContext.check_if_match (ctx : RequestContext) (hash : Nat) :
    Except PointercrateError Unit :=
  match ctx with
  | .External _ (some im) =>
    if im.met hash then .ok () else .error .PreconditionFailed
  | .External _ none =>
    .error (.InvalidState "Checked precondition on request that does not check precondition (this does not make sense!)")
  | .Internal => .ok ()

/-- Patchable interface of the actor-based patch protocol (patch.rs is not under src/;
the shape is given by its uses in actor/database.rs and spec 4.3): `required_permissions`
is the permission bitmask demanded by the payload, `apply_patch` validates and applies
the payload in memory, `update_database` persists the patched value. `Db` stands for the
storage state, threaded explicitly in place of the borrowed connection. -/
structure Patchable (T P Db : Type) where
  required_permissions : P → Nat
  apply_patch : T → P → Except PointercrateError T
  update_database : T → Db → Except PointercrateError Db

/-- Handler for `Patch<T, P>` (actor/database.rs lines 667-689). The connection-pool
acquisition is modelled by `poolOk`; a failing `update_database` is rolled back by the
store (spec 4.3 persist step), so the prior state is returned alongside its error. -/
def handlePatch {T P Db : Type} (i : Patchable T P Db) (user : User) (target : T)
    (patch : P) (poolOk : Bool) (db : Db) : Except PointercrateError T × Db :=
  let required := i.required_permissions patch
  if user.permissions &&& required ≠ required then
    (.error (.MissingPermissions [required]), db)
  else
    match i.apply_patch target patch with
    | .error e => (.error e, db)
    | .ok target2 =>
      if poolOk then
        match i.update_database target2 db with
        | .error e => (.error e, db)
        | .ok db2 => (.ok target2, db2)
      else (.error .DatabaseConnectionError, db)

/-- Handler for `PatchCurrentUser` (actor/database.rs lines 696-712): applies the patch
in memory and persists it. It performs no permission check. -/
def handlePatchCurrentUser {P Db : Type} (i : Patchable User P Db) (user : User)
    (patch : P) (poolOk : Bool) (db : Db) : Except PointercrateError User × Db :=
  match i.apply_patch user patch with
  | .error e => (.error e, db)
  | .ok user2 =>
    if poolOk then
      match i.update_database user2 db with
      | .error e => (.error e, db)
      | .ok db2 => (.ok user2, db2)
    else (.error .DatabaseConnectionError, db)

/-- Modelled from the spec: a partial-update payload for the actor-based protocol whose
fields demand different roles — "different fields may require different roles; the
required set is the union needed for the fields actually present" (spec 4.3). Field `a`
demands ListModerator, field `b` demands ListAdministrator. -/
structure TwoFieldPatch where
  a : Option Int
  b : Option Int
deriving DecidableEq, Repr

/-- Required permission union of a `TwoFieldPatch`: the union (bitwise or) over the
fields actually present. -/
def TwoFieldPatch.required_permissions (p : TwoFieldPatch) : Nat :=
  (if p.a.isSome then Permissions.ListModerator else 0) |||
    (if p.b.isSome then Permissions.ListAdministrator else 0)

/-- Patchable instance packaging `TwoFieldPatch` over a trivial entity and store, used
to run the generic handler on concrete inputs. -/
def twoFieldPatchable : Patchable Unit TwoFieldPatch Unit :=
  { required_permissions := TwoFieldPatch.required_permissions,
    apply_patch := fun t _ => .ok t,
    update_database := fun _ db => .ok db }

/-- Patchable instance packaging `TwoFieldPatch` over the `User` entity, used to run the
patch-self handler on concrete inputs. -/
def userTwoFieldPatchable : Patchable User TwoFieldPatch Unit :=
  { required_permissions := TwoFieldPatch.required_permissions,
    apply_patch := fun u _ => .ok u,
    update_database := fun _ db => .ok db }

/-- Embedded player referenced by a demon as verifier/publisher (model/player.rs is not
under src/; the fields follow their uses in src/). -/
structure EmbeddedPlayer where
  id : Int
  name : String
  banned : Bool
deriving DecidableEq, Repr

/-- Demon entity (model/demon/mod.rs is not under src/; the fields follow their uses in
src/): list position, minimal record requirement, optional video, verifier, publisher.
Numeric columns (i16) are modelled as Int. -/
structure Demon where
  name : String
  position : Int
  requirement : Int
  video : Option String
  verifier : EmbeddedPlayer
  publisher : EmbeddedPlayer
deriving DecidableEq, Repr

/-- PatchDemon payload (model/demon/patch.rs, `make_patch!`): one optional slot per
field; `video` is a nullable column, so its slot distinguishes absent, explicit null and
a new value. -/
structure PatchDemon where
  name : Option String
  position : Option Int
  video : Option (Option String)
  requirement : Option Int
  verifier : Option String
  publisher : Option String
deriving DecidableEq, Repr

/-- Storage state for the demon patch: the demons table, the players table, and a count
of the storage transactions opened so far. -/
structure DemonDb where
  demons : List Demon
  players : List EmbeddedPlayer
  tx : Nat
deriving DecidableEq, Repr

/-- Modelled from the spec: `EmbeddedPlayer::get` (the Get operation, not under src/) —
"referential lookups such as resolving a verifier/publisher name to an existing Player"
(spec 4.3), failing with `ModelNotFound`. -/
def EmbeddedPlayer.get (name : String) (db : DemonDb) :
    Except PointercrateError EmbeddedPlayer :=
  match db.players.find? (fun p => p.name == name) with
  | some p => .ok p
  | none => .error (.ModelNotFound "Player" name)

/-- Modelled from the spec: the demon field validators and the position reshuffle, whose
bodies are not under src/ — `Demon::validate_name`, `Demon::validate_position`,
`Demon::validate_video` ("for each present field, run its validator ... against the
current store state", spec 4.3, a validator may canonicalize the value it returns) and
`Demon::mv` ("the position change must be resolved as its own sub-step that reshuffles
conflicting neighbors before the row update", spec 4.3; it returns the repositioned
demon and the reshuffled table). -/
structure DemonValidators where
  validate_name : String → List Demon → Except PointercrateError String
  validate_position : Int → List Demon → Except PointercrateError Int
  validate_video : String → Except PointercrateError String
  mv : Demon → Int → List Demon → Except PointercrateError (Demon × List Demon)

/-- Row update inside the demon patch transaction (model/demon/patch.rs lines 52-61):
for the rows matching the patched name, write name, video, requirement, verifier and
publisher; position is written by `mv` alone. -/
def Demon.updateRow (d : Demon) (demons : List Demon) : List Demon :=
  demons.map (fun row =>
    if row.name == d.name then
      { row with name := d.name, video := d.video, requirement := d.requirement,
                 verifier := d.verifier, publisher := d.publisher }
    else row)

/-- In-memory phase of `Patch<PatchDemon> for Demon::patch` (model/demon/patch.rs lines
26-44): permission check, precondition check, per-field validation and application, all
before any write; it returns the patched demon and the validated position. `hashD`
stands for the `DefaultHasher` run over the demon. -/
def Demon.patchPrepare (V : DemonValidators) (hashD : Demon → Nat)
    (ctx : RequestContext) (self : Demon) (p : PatchDemon) (db : DemonDb) :
    Except PointercrateError (Demon × Option Int) := do
  ctx.check_permissions [Permissions.ListModerator, Permissions.ListAdministrator]
  ctx.check_if_match (hashD self)
  let name2 ← match p.name with
    | some n => Except.map some (V.validate_name n db.demons)
    | none => pure none
  let pos2 ← match p.position with
    | some x => Except.map some (V.validate_position x db.demons)
    | none => pure none
  let video2 ← match p.video with
    | some (some v) => Except.map (fun c => some (some c)) (V.validate_video v)
    | some none => pure (some none)
    | none => pure none
  let self2 : Demon := { self with
    name := name2.getD self.name,
    video := video2.getD self.video,
    requirement := p.requirement.getD self.requirement }
  let self3 ← match p.verifier with
    | some n => Except.map (fun pl => { self2 with verifier := pl }) (EmbeddedPlayer.get n db)
    | none => pure self2
  let self4 ← match p.publisher with
    | some n => Except.map (fun pl => { self3 with publisher := pl }) (EmbeddedPlayer.get n db)
    | none => pure self3
  pure (self4, pos2)

/-- Handler `Patch<PatchDemon> for Demon::patch` (model/demon/patch.rs lines 26-65): the
prepare phase only reads; on its success exactly one transaction is opened, inside which
the optional position reshuffle and then the row update run, and which rolls the demons
table back if either fails. -/
def Demon.patch (V : DemonValidators) (hashD : Demon → Nat) (ctx : RequestContext)
    (self : Demon) (p : PatchDemon) (db : DemonDb) :
    Except PointercrateError Demon × DemonDb :=
  match Demon.patchPrepare V hashD ctx self p db with
  | .error e => (.error e, db)
  | .ok prepared =>
    match (match prepared.2 with
           | some pos => V.mv prepared.1 pos db.demons
           | none => .ok (prepared.1, db.demons)) with
    | .error e => (.error e, { db with tx := db.tx + 1 })
    | .ok moved =>
      (.ok moved.1, { db with demons := Demon.updateRow moved.1 moved.2, tx := db.tx + 1 })

/-- Submission input (model/record.rs `Submission`, not under src/; the fields follow
the destructuring in actor/database.rs lines 324-330). -/
structure Submission where
  progress : Int
  player : String
  demon : String
  video : Option String
  verify_only : Bool
deriving DecidableEq, Repr

/-- Submitter entity (model/submitter.rs, not under src/; the fields follow their uses
in actor/database.rs). -/
structure Submitter where
  id : Int
  banned : Bool
deriving DecidableEq, Repr

/-- Player entity (model/player.rs, not under src/; the fields follow their uses in
actor/database.rs). -/
structure Player where
  id : Int
  name : String
  banned : Bool
deriving DecidableEq, Repr

/-- Persisted record row (model/record.rs `Record`, not under src/; the fields follow
the literal built in actor/database.rs lines 432-440, with the owning player and demon
kept by key). -/
structure RecordRow where
  id : Int
  progress : Int
  video : Option String
  status : RecordStatus
  player : Int
  submitter : Int
  demon : String
deriving DecidableEq, Repr

/-- Storage state for submission processing: players, demons and records tables plus
the id supplies of the two insert collaborators. -/
structure SubDb where
  players : List Player
  demons : List Demon
  records : List RecordRow
  nextPlayerId : Int
  nextRecordId : Int
deriving DecidableEq, Repr

/-- Observable calls of `ProcessSubmission`: a call into the external video-validation
collaborator, and the dispatches into the player/demon resolution handlers. -/
inductive Event where
  | videoValidate (raw : String)
  | resolvePlayer (name : String)
  | resolveDemon (name : String)
deriving DecidableEq, Repr

/-- List boundaries (config.rs, `LIST_SIZE` and `EXTENDED_LIST_SIZE`, not under src/):
kept as parameters. -/
structure ListConfig where
  LIST_SIZE : Int
  EXTENDED_LIST_SIZE : Int
deriving DecidableEq, Repr

/-- Handler `PlayerByName` (actor/database.rs lines 238-259): auto-vivifies — an unknown
player name is inserted (`Player::insert` is not under src/; modelled from the spec: "an
unknown player name is implicitly created rather than rejected", with the next free id
and not banned). -/
def playerByName (name : String) (db : SubDb) : Player × SubDb :=
  match db.players.find? (fun p => p.name == name) with
  | some p => (p, db)
  | none =>
    let p : Player := { id := db.nextPlayerId, name := name, banned := false }
    (p, { db with players := db.players ++ [p], nextPlayerId := db.nextPlayerId + 1 })

/-- Handler `DemonByName` (actor/database.rs lines 265-286): `ModelNotFound` when no
demon has the given name. -/
def demonByName (name : String) (db : SubDb) : Except PointercrateError Demon :=
  match db.demons.find? (fun d => d.name == name) with
  | some d => .ok d
  | none => .error (.ModelNotFound "Demon" name)

/-- Video step of `ProcessSubmission` (actor/database.rs lines 332-335): an absent
reference passes through, a present one goes through the external video-validation
collaborator `validate` (video.rs, external), whose error is propagated verbatim. -/
def validateVideoOpt (validate : String → Except PointercrateError String) :
    Option String → Except PointercrateError (Option String)
  | some v => Except.map some (validate v)
  | none => .ok none

/-- Modelled from the spec: the duplicate lookup (`Record::get_existing` and
`Record::by_player_and_demon`, not under src/) — "matched either by identical video
reference or by (player, demon) pair when no video given" (spec 4.4 step 8). -/
def getExisting (playerId : Int) (demonName : String) (video : Option String)
    (records : List RecordRow) : Option RecordRow :=
  match video with
  | some v =>
    records.find? (fun r => (r.player == playerId && r.demon == demonName) || r.video == some v)
  | none => records.find? (fun r => r.player == playerId && r.demon == demonName)

/-- Record deletion (`Record::delete`, not under src/): removes the row by id. -/
def deleteRecord (id : Int) (records : List RecordRow) : List RecordRow :=
  records.filter (fun r => r.id != id)

/-- Modelled from the spec: `Record::insert` (not under src/) — "insert a new record
with status Submitted" (spec 4.4 step 8); the fresh row takes the next free id, which is
returned like the Rust insert returns the new id. -/
def insertRecord (progress : Int) (video : Option String) (playerId submitterId : Int)
    (demonName : String) (db : SubDb) : Int × SubDb :=
  (db.nextRecordId,
   { db with
     records := db.records ++
       [{ id := db.nextRecordId, progress := progress, video := video,
          status := RecordStatus.Submitted, player := playerId,
          submitter := submitterId, demon := demonName }],
     nextRecordId := db.nextRecordId + 1 })

/-- Handler `ProcessSubmission` (actor/database.rs lines 314-442). Storage is threaded
through `db`; the event list records, in order, the calls into the video-validation
collaborator and the dispatches into player/demon resolution; `poolOk` models the pool
acquisition before the duplicate lookup. The returned record literal mirrors lines
432-440. -/
def processSubmission (cfg : ListConfig)
    (validate : String → Except PointercrateError String) (poolOk : Bool)
    (sub : Submission) (submitter : Submitter) (db : SubDb) :
    Except PointercrateError (Option RecordRow) × SubDb × List Event :=
  if submitter.banned then (.error .BannedFromSubmissions, db, [])
  else
    let videoEvents := match sub.video with
      | some v => [Event.videoValidate v]
      | none => []
    match validateVideoOpt validate sub.video with
    | .error e => (.error e, db, videoEvents)
    | .ok video =>
      let resolved := playerByName sub.player db
      let player := resolved.1
      let db1 := resolved.2
      let events := videoEvents ++ [Event.resolvePlayer sub.player, Event.resolveDemon sub.demon]
      match demonByName sub.demon db1 with
      | .error e => (.error e, db1, events)
      | .ok demon =>
        if player.banned then (.error .PlayerBanned, db1, events)
        else if demon.position > cfg.EXTENDED_LIST_SIZE then (.error .SubmitLegacy, db1, events)
        else if demon.position > cfg.LIST_SIZE ∧ sub.progress ≠ 100 then
          (.error .Non100Extended, db1, events)
        else if sub.progress > 100 ∨ sub.progress < demon.requirement then
          (.error (.InvalidProgress demon.requirement), db1, events)
        else if poolOk then
          match getExisting player.id demon.name video db1.records with
          | some record =>
            if record.status ≠ RecordStatus.Rejected ∧ record.progress < sub.progress then
              if sub.verify_only then (.ok none, db1, events)
              else
                let db2 := if record.status = RecordStatus.Submitted
                  then { db1 with records := deleteRecord record.id db1.records }
                  else db1
                let ins := insertRecord sub.progress video player.id submitter.id demon.name db2
                (.ok (some { id := ins.1, progress := sub.progress, video := video,
                             status := RecordStatus.Submitted, player := player.id,
                             submitter := submitter.id, demon := demon.name }),
                 ins.2, events)
            else (.error (.SubmissionExists record.status record.id), db1, events)
          | none =>
            if sub.verify_only then (.ok none, db1, events)
            else
              let ins := insertRecord sub.progress video player.id submitter.id demon.name db1
              (.ok (some { id := ins.1, progress := sub.progress, video := video,
                           status := RecordStatus.Submitted, player := player.id,
                           submitter := submitter.id, demon := demon.name }),
               ins.2, events)
        else (.error .DatabaseConnectionError, db1, events)

/-- Modelled from the spec: a Paginatable query (pagination.rs is not under src/). Each
boundary query may fail with a storage error and yields the urlencoded query of the
boundary page, absent when there is no such page ("all four boundary queries return
none", spec 4.5); `result` yields the page itself. -/
structure Paginator (R Db : Type) where
  first : Db → Except PointercrateError (Option String)
  last : Db → Except PointercrateError (Option String)
  next_after : Db → Except PointercrateError (Option String)
  prev_before : Db → Except PointercrateError (Option String)
  result : Db → Except PointercrateError (List R)

/-- Urlencoding of a boundary query (serde_urlencoded, external collaborator): an absent
boundary encodes as the empty string ("encoded as empty/absent links", spec 4.5). -/
def encodeQuery : Option String → String
  | some s => s
  | none => ""

/-- Handler `Paginate<P>` (actor/database.rs lines 744-773): runs the four boundary
queries and the page query, then assembles the navigation header from the four encoded
queries. -/
def handlePaginate {R Db : Type} (p : Paginator R Db) (poolOk : Bool) (db : Db) :
    Except PointercrateError (List R × String) :=
  if poolOk then do
    let first ← p.first db
    let last ← p.last db
    let next ← p.next_after db
    let prev ← p.prev_before db
    let result ← p.result db
    pure (result,
      "<" ++ encodeQuery first ++ ">; rel=first,<" ++ encodeQuery prev ++
      ">; rel=prev,<" ++ encodeQuery next ++ ">; rel=next,<" ++ encodeQuery last ++
      ">; rel=last")
  else .error .DatabaseConnectionError

/-- Records of the submission store are untouched by player resolution: auto-vivify
inserts a player, never a record. -/
theorem playerByName_records (name : String) (db : SubDb) :
    (playerByName name db).2.records = db.records := by
  unfold playerByName
  cases db.players.find? (fun p => p.name == name) <;> rfl

/-- C5: `check_if_match` succeeds on an Internal context; on an External context that
declared a precondition it succeeds exactly when the token is met by the entity hash and
fails with `PreconditionFailed` otherwise; on an External context that declared no
precondition it fails with the `InvalidState` internal-logic error rather than silently
passing. -/
theorem check_if_match_spec (u : Option User) (im : IfMatch) (h : Nat) :
    RequestContext.Internal.check_if_match h = .ok () ∧
    (RequestContext.External u (some im)).check_if_match h =
      (if im.met h then .ok () else .error .PreconditionFailed) ∧
    (RequestContext.External u none).check_if_match h =
      .error (.InvalidState "Checked precondition on request that does not check precondition (this does not make sense!)") :=
  ⟨rfl, rfl, rfl⟩

/-- C9: a submission whose submitter is banned fails with `BannedFromSubmissions`, the
store is untouched, and no player resolution, demon resolution or video-validation call
happens (the event trace is empty). -/
theorem processSubmission_banned_submitter (cfg : ListConfig)
    (validate : String → Except PointercrateError String) (poolOk : Bool)
    (sub : Submission) (submitter : Submitter) (db : SubDb)
    (hb : submitter.banned = true) :
    processSubmission cfg validate poolOk sub submitter db =
      (.error .BannedFromSubmissions, db, []) := by
  simp [processSubmission, hb]

/-- Witness for C9 at a concrete banned submitter. -/
theorem processSubmission_banned_submitter_witness :
    processSubmission { LIST_SIZE := 50, EXTENDED_LIST_SIZE := 100 }
      (fun _ => .error (.InvalidUrl "bad")) true
      { progress := 99, player := "a", demon := "b", video := some "v", verify_only := false }
      { id := 7, banned := true }
      { players := [], demons := [], records := [], nextPlayerId := 1, nextRecordId := 1 } =
      (.error .BannedFromSubmissions,
       { players := [], demons := [], records := [], nextPlayerId := 1, nextRecordId := 1 },
       []) :=
  processSubmission_banned_submitter _ _ _ _ _ _ rfl

/-- C1 (amended): on a non-empty required set, `check_permissions` succeeds on Internal
contexts, fails with `Unauthorized` on External contexts without identity, and with an
identity succeeds exactly when the granted set intersects the required set (ANY
alternative suffices), failing with `MissingPermissions{required}` otherwise; an empty
required set always succeeds. Step 1 of the generic patch protocol, however, demands ALL
bits of the payload's required permission union: whenever some bit is missing it fails
with `MissingPermissions` of the singleton set of that union — even if the granted set
intersects it — and it never fails with `Unauthorized`. -/
theorem check_permissions_any_but_patch_requires_all (perms : List Nat) (u : User)
    (im : Option IfMatch) :
    (RequestContext.Internal.check_permissions perms = .ok ()) ∧
    ((RequestContext.External none im).check_permissions perms =
      (if perms.isEmpty then .ok () else .error .Unauthorized)) ∧
    ((RequestContext.External (some u) im).check_permissions perms =
      (if perms.isEmpty then .ok ()
       else if hasAny u.permissions perms then .ok ()
       else .error (.MissingPermissions perms))) ∧
    (∀ (T P Db : Type) (i : Patchable T P Db) (user : User) (t : T) (p : P)
        (poolOk : Bool) (db : Db),
      user.permissions &&& i.required_permissions p ≠ i.required_permissions p →
      handlePatch i user t p poolOk db =
        (.error (.MissingPermissions [i.required_permissions p]), db)) := by
  refine ⟨?_, ?_, ?_, ?_⟩
  · by_cases hp : perms.isEmpty <;> simp [RequestContext.check_permissions, hp]
  · by_cases hp : perms.isEmpty <;> simp [RequestContext.check_permissions, hp]
  · by_cases hp : perms.isEmpty <;> by_cases ha : hasAny u.permissions perms <;>
      simp [RequestContext.check_permissions, hp, ha]
  · intro T P Db i user t p poolOk db hne
    simp [handlePatch, hne]

/-- C1 (counterexample): with both fields present, the payload's required union is
12 = ListModerator ||| ListAdministrator; an actor granted exactly ListModerator
intersects that union — the actor holds one of the required capabilities — yet the
generic patch handler rejects with `MissingPermissions`. -/
theorem patch_auth_intersection_counterexample :
    TwoFieldPatch.required_permissions { a := some 1, b := some 2 } = 12 ∧
    Permissions.ListModerator &&& 12 ≠ 0 ∧
    handlePatch twoFieldPatchable { permissions := Permissions.ListModerator } ()
      { a := some 1, b := some 2 } true () =
      (.error (.MissingPermissions [12]), ()) :=
  ⟨rfl, by decide, rfl⟩

/-- Witness for C1 at a concrete payload and actor lacking one of the two bits. -/
theorem check_permissions_any_but_patch_requires_all_witness :
    handlePatch twoFieldPatchable { permissions := Permissions.ListAdministrator } ()
      { a := some 1, b := some 2 } true () =
      (.error (.MissingPermissions [12]), ()) :=
  (check_permissions_any_but_patch_requires_all [] { permissions := 0 } none).2.2.2
    Unit TwoFieldPatch Unit twoFieldPatchable { permissions := Permissions.ListAdministrator }
    () { a := some 1, b := some 2 } true () (by decide)

/-- C7 (amended): the patch-self handler performs only the validate-apply and persist
steps of the pipeline; it coincides with the generic patch applied to the actor itself
exactly when the actor passes the payload's permission check, and when the actor lacks a
required bit the generic patch fails with `MissingPermissions` while patch-self still
applies and persists the patch. -/
theorem patchCurrentUser_pipeline (P Db : Type) (i : Patchable User P Db) (u : User)
    (p : P) (poolOk : Bool) (db : Db) :
    (u.permissions &&& i.required_permissions p = i.required_permissions p →
      handlePatchCurrentUser i u p poolOk db = handlePatch i u u p poolOk db) ∧
    (∀ (u2 : User) (db2 : Db),
      u.permissions &&& i.required_permissions p ≠ i.required_permissions p →
      i.apply_patch u p = .ok u2 → i.update_database u2 db = .ok db2 → poolOk = true →
      handlePatchCurrentUser i u p poolOk db = (.ok u2, db2) ∧
      handlePatch i u u p poolOk db =
        (.error (.MissingPermissions [i.required_permissions p]), db)) := by
  constructor
  · intro hall
    unfold handlePatch handlePatchCurrentUser
    rw [if_neg (fun h => h hall)]
    cases i.apply_patch u p <;> rfl
  · intro u2 db2 hne happ hupd hpool
    subst hpool
    exact ⟨by simp [handlePatchCurrentUser, happ, hupd], by simp [handlePatch, hne]⟩

/-- C7 (counterexample): an actor with no permissions and a payload demanding
ListModerator — the generic patch on the actor itself fails with `MissingPermissions`,
but patch-self succeeds: patch-self does not apply the authorization step. -/
theorem patchCurrentUser_skips_auth_counterexample :
    handlePatchCurrentUser userTwoFieldPatchable { permissions := 0 }
      { a := some 1, b := none } true () = (.ok { permissions := 0 }, ()) ∧
    handlePatch userTwoFieldPatchable { permissions := 0 } { permissions := 0 }
      { a := some 1, b := none } true () =
      (.error (.MissingPermissions [Permissions.ListModerator]), ()) :=
  ⟨rfl, rfl⟩

/-- Witness for C7 at a concrete actor holding only ListAdministrator. -/
theorem patchCurrentUser_pipeline_witness :
    handlePatchCurrentUser userTwoFieldPatchable
      { permissions := Permissions.ListAdministrator } { a := some 1, b := none } true () =
      (.ok { permissions := Permissions.ListAdministrator }, ()) ∧
    handlePatch userTwoFieldPatchable { permissions := Permissions.ListAdministrator }
      { permissions := Permissions.ListAdministrator } { a := some 1, b := none } true () =
      (.error (.MissingPermissions [Permissions.ListModerator]), ()) :=
  (patchCurrentUser_pipeline TwoFieldPatch Unit userTwoFieldPatchable
      { permissions := Permissions.ListAdministrator } { a := some 1, b := none } true ()).2
    { permissions := Permissions.ListAdministrator } () (by decide) rfl rfl rfl

/-- C4: pagination whose filtered result set is empty — all four boundary queries return
none and the page query returns the empty page — succeeds with the empty page and a
navigation header whose four links are all empty. -/
theorem paginate_empty (R Db : Type) (p : Paginator R Db) (db : Db)
    (hf : p.first db = .ok none) (hl : p.last db = .ok none)
    (hn : p.next_after db = .ok none) (hp : p.prev_before db = .ok none)
    (hr : p.result db = .ok []) :
    handlePaginate p true db =
      .ok ([], "<>; rel=first,<>; rel=prev,<>; rel=next,<>; rel=last") := by
  simp only [handlePaginate, hf, hl, hn, hp, hr, if_true]
  rfl

/-- Paginator of an empty store: every boundary query is absent, the page is empty. -/
def emptyPaginator : Paginator Nat Unit :=
  { first := fun _ => .ok none, last := fun _ => .ok none,
    next_after := fun _ => .ok none, prev_before := fun _ => .ok none,
    result := fun _ => .ok [] }

/-- Witness for C4 on the empty-store paginator. -/
theorem paginate_empty_witness :
    handlePaginate emptyPaginator true () =
      .ok ([], "<>; rel=first,<>; rel=prev,<>; rel=next,<>; rel=last") :=
  paginate_empty Nat Unit emptyPaginator () rfl rfl rfl rfl rfl

/-- C2: the generic patch handler touches no storage when authorization or in-memory
validation fails (its single write, `update_database`, is reached only after both); the
demon patch opens no transaction when any step before persist fails, and on a successful
persist opens exactly one transaction, inside which the optional position reshuffle and
the row update both run and which rolls the demons table back if the reshuffle fails. -/
theorem patch_single_transaction :
    (∀ (T P Db : Type) (i : Patchable T P Db) (u : User) (t : T) (p : P)
        (poolOk : Bool) (db : Db),
      u.permissions &&& i.required_permissions p ≠ i.required_permissions p →
      (handlePatch i u t p poolOk db).2 = db) ∧
    (∀ (T P Db : Type) (i : Patchable T P Db) (u : User) (t : T) (p : P)
        (poolOk : Bool) (db : Db) (e : PointercrateError),
      i.apply_patch t p = .error e → (handlePatch i u t p poolOk db).2 = db) ∧
    (∀ (V : DemonValidators) (hashD : Demon → Nat) (ctx : RequestContext) (self : Demon)
        (p : PatchDemon) (db : DemonDb) (e : PointercrateError),
      Demon.patchPrepare V hashD ctx self p db = .error e →
      Demon.patch V hashD ctx self p db = (.error e, db)) ∧
    (∀ (V : DemonValidators) (hashD : Demon → Nat) (ctx : RequestContext) (self : Demon)
        (p : PatchDemon) (db : DemonDb) (d : Demon),
      (Demon.patch V hashD ctx self p db).1 = .ok d →
      (Demon.patch V hashD ctx self p db).2.tx = db.tx + 1) ∧
    (∀ (V : DemonValidators) (hashD : Demon → Nat) (ctx : RequestContext) (self : Demon)
        (p : PatchDemon) (db : DemonDb) (self2 : Demon) (pos : Int)
        (e : PointercrateError),
      Demon.patchPrepare V hashD ctx self p db = .ok (self2, some pos) →
      V.mv self2 pos db.demons = .error e →
      Demon.patch V hashD ctx self p db = (.error e, { db with tx := db.tx + 1 })) ∧
    (∀ (V : DemonValidators) (hashD : Demon → Nat) (ctx : RequestContext) (self : Demon)
        (p : PatchDemon) (db : DemonDb) (self2 : Demon) (pos2 : Option Int)
        (moved : Demon × List Demon),
      Demon.patchPrepare V hashD ctx self p db = .ok (self2, pos2) →
      (match pos2 with
       | some pos => V.mv self2 pos db.demons
       | none => .ok (self2, db.demons)) = .ok moved →
      Demon.patch V hashD ctx self p db =
        (.ok moved.1,
         { db with demons := Demon.updateRow moved.1 moved.2, tx := db.tx + 1 })) := by
  refine ⟨?_, ?_, ?_, ?_, ?_, ?_⟩
  · intro T P Db i u t p poolOk db hne
    simp [handlePatch, hne]
  · intro T P Db i u t p poolOk db e happ
    unfold handlePatch
    by_cases hne : u.permissions &&& i.required_permissions p ≠ i.required_permissions p
    · rw [if_pos hne]
    · rw [if_neg hne, happ]
  · intro V hashD ctx self p db e hprep
    unfold Demon.patch
    rw [hprep]
  · intro V hashD ctx self p db d hok
    cases hprep : Demon.patchPrepare V hashD ctx self p db with
    | error e =>
      have heq : Demon.patch V hashD ctx self p db = (.error e, db) := by
        unfold Demon.patch; rw [hprep]
      rw [heq] at hok
      simp at hok
    | ok prepared =>
      have heq : Demon.patch V hashD ctx self p db =
          (match (match prepared.2 with
                  | some pos => V.mv prepared.1 pos db.demons
                  | none => .ok (prepared.1, db.demons)) with
           | .error e => (.error e, { db with tx := db.tx + 1 })
           | .ok moved =>
             (.ok moved.1,
              { db with demons := Demon.updateRow moved.1 moved.2, tx := db.tx + 1 })) := by
        unfold Demon.patch
        rw [hprep]
      rw [heq]
      cases hmv : (match prepared.2 with
        | some pos => V.mv prepared.1 pos db.demons
        | none => .ok (prepared.1, db.demons)) with
      | error e => rfl
      | ok moved => rfl
  · intro V hashD ctx self p db self2 pos e hprep hmv
    unfold Demon.patch
    rw [hprep]
    simp only [hmv]
  · intro V hashD ctx self p db self2 pos2 moved hprep hmv
    unfold Demon.patch
    rw [hprep]
    simp only [hmv]

/-- Sample collaborators for concrete runs of the demon patch: the validators accept the
value unchanged, `mv` repositions the demon and leaves its neighbors where they are. -/
def sampleValidators : DemonValidators :=
  { validate_name := fun n _ => .ok n,
    validate_position := fun x _ => .ok x,
    validate_video := fun v => .ok v,
    mv := fun d pos demons => .ok ({ d with position := pos }, demons) }

/-- Sample player row. -/
def samplePlayer : EmbeddedPlayer := { id := 1, name := "a", banned := false }

/-- Sample demon row. -/
def sampleDemon : Demon :=
  { name := "x", position := 1, requirement := 90, video := none,
    verifier := samplePlayer, publisher := samplePlayer }

/-- Sample demon store with one demon and one player, no transaction opened yet. -/
def sampleDemonDb : DemonDb :=
  { demons := [sampleDemon], players := [samplePlayer], tx := 0 }

/-- Sample demon patch payload: move to position 2, lower the requirement to 85. -/
def samplePatch : PatchDemon :=
  { name := none, position := some 2, video := none, requirement := some 85,
    verifier := none, publisher := none }

/-- Witness for C2: a concrete successful demon patch opens exactly one transaction and
performs the reshuffle and the row update inside it. -/
theorem patch_single_transaction_witness :
    Demon.patch sampleValidators (fun _ => 0) .Internal sampleDemon samplePatch
      sampleDemonDb =
      (.ok { name := "x", position := 2, requirement := 85, video := none,
             verifier := samplePlayer, publisher := samplePlayer },
       { demons := [{ name := "x", position := 1, requirement := 85, video := none,
                      verifier := samplePlayer, publisher := samplePlayer }],
         players := [samplePlayer], tx := 1 }) := by
  have h := patch_single_transaction.2.2.2.2.2 sampleValidators (fun _ => 0) .Internal
    sampleDemon samplePatch sampleDemonDb
    { name := "x", position := 1, requirement := 85, video := none,
      verifier := samplePlayer, publisher := samplePlayer } (some 2)
    ({ name := "x", position := 2, requirement := 85, video := none,
       verifier := samplePlayer, publisher := samplePlayer }, [sampleDemon]) rfl rfl
  exact h

/-- C10: once a submission by a non-banned submitter is resolved to a non-banned player
and a demon, the gates apply in order: beyond the extended-list boundary the submission
fails with `SubmitLegacy` whatever the progress; within the extended but beyond the main
list, a progress other than 100 fails with `Non100Extended`; otherwise a progress above
100 or below the demon requirement fails with `InvalidProgress{requirement}`. -/
theorem processSubmission_position_progress_gates (cfg : ListConfig)
    (validate : String → Except PointercrateError String) (poolOk : Bool)
    (sub : Submission) (submitter : Submitter) (db : SubDb) (video2 : Option String)
    (pl : Player) (db1 : SubDb) (dm : Demon)
    (hb : submitter.banned = false)
    (hv : validateVideoOpt validate sub.video = .ok video2)
    (hp : playerByName sub.player db = (pl, db1))
    (hd : demonByName sub.demon db1 = .ok dm)
    (hpb : pl.banned = false) :
    (dm.position > cfg.EXTENDED_LIST_SIZE →
      (processSubmission cfg validate poolOk sub submitter db).1 =
        .error .SubmitLegacy) ∧
    (¬ dm.position > cfg.EXTENDED_LIST_SIZE → dm.position > cfg.LIST_SIZE →
      sub.progress ≠ 100 →
      (processSubmission cfg validate poolOk sub submitter db).1 =
        .error .Non100Extended) ∧
    (¬ dm.position > cfg.EXTENDED_LIST_SIZE →
      ¬ (dm.position > cfg.LIST_SIZE ∧ sub.progress ≠ 100) →
      (sub.progress > 100 ∨ sub.progress < dm.requirement) →
      (processSubmission cfg validate poolOk sub submitter db).1 =
        .error (.InvalidProgress dm.requirement)) := by
  refine ⟨?_, ?_, ?_⟩
  · intro hx
    simp only [processSubmission, hb, hv, hp, hd, hpb, Bool.false_eq_true, if_false]
    rw [if_pos hx]
  · intro h1 h2a h2b
    simp only [processSubmission, hb, hv, hp, hd, hpb, Bool.false_eq_true, if_false]
    rw [if_neg h1, if_pos ⟨h2a, h2b⟩]
  · intro h1 h2 h3
    simp only [processSubmission, hb, hv, hp, hd, hpb, Bool.false_eq_true, if_false]
    rw [if_neg h1, if_neg h2, if_pos h3]

/-- Sample configuration: main list of 50, extended list of 100. -/
def sampleCfg : ListConfig := { LIST_SIZE := 50, EXTENDED_LIST_SIZE := 100 }

/-- Sample demon on the main list. -/
def subDemon1 : Demon :=
  { name := "Cataclysm", position := 1, requirement := 90, video := none,
    verifier := samplePlayer, publisher := samplePlayer }

/-- Sample demon on the extended list. -/
def subDemon2 : Demon :=
  { name := "SonicWave", position := 60, requirement := 100, video := none,
    verifier := samplePlayer, publisher := samplePlayer }

/-- Sample demon on the legacy list. -/
def subDemon3 : Demon :=
  { name := "Yatagarasu", position := 120, requirement := 100, video := none,
    verifier := samplePlayer, publisher := samplePlayer }

/-- Sample submitter in good standing. -/
def subSubmitter : Submitter := { id := 5, banned := false }

/-- Sample submission store: one known player, the three demons, one Submitted record of
progress 40 on the main-list demon. -/
def sampleSubDb : SubDb :=
  { players := [{ id := 1, name := "p1", banned := false }],
    demons := [subDemon1, subDemon2, subDemon3],
    records := [{ id := 10, progress := 40, video := none, status := RecordStatus.Submitted,
                  player := 1, submitter := 5, demon := "Cataclysm" }],
    nextPlayerId := 2, nextRecordId := 11 }

/-- Video validator that accepts everything unchanged. -/
def okValidate : String → Except PointercrateError String := fun s => .ok s

/-- Witness for C10: a legacy-list demon rejects a progress-100 submission with
`SubmitLegacy`. -/
theorem processSubmission_position_progress_gates_witness :
    (processSubmission sampleCfg okValidate true
      { progress := 100, player := "p1", demon := "Yatagarasu", video := none,
        verify_only := false }
      subSubmitter sampleSubDb).1 = .error .SubmitLegacy :=
  (processSubmission_position_progress_gates sampleCfg okValidate true
      { progress := 100, player := "p1", demon := "Yatagarasu", video := none,
        verify_only := false }
      subSubmitter sampleSubDb none { id := 1, name := "p1", banned := false }
      sampleSubDb subDemon3 rfl rfl rfl rfl rfl).1 (by decide)

/-- C6: a non-verify-only submission that passed the gates and matches an existing
record: when that record is Rejected or has at least the submitted progress, the command
fails with `SubmissionExists` of its status and id and the records table is untouched;
otherwise the existing record is deleted exactly when its status is Submitted (a
lower-progress Approved record stays), and a fresh record with the submitted progress
and status Submitted is inserted. -/
theorem processSubmission_duplicate_resolution (cfg : ListConfig)
    (validate : String → Except PointercrateError String)
    (sub : Submission) (submitter : Submitter) (db : SubDb) (video2 : Option String)
    (pl : Player) (db1 : SubDb) (dm : Demon) (r : RecordRow)
    (hvo : sub.verify_only = false)
    (hb : submitter.banned = false)
    (hv : validateVideoOpt validate sub.video = .ok video2)
    (hp : playerByName sub.player db = (pl, db1))
    (hd : demonByName sub.demon db1 = .ok dm)
    (hpb : pl.banned = false)
    (h1 : ¬ dm.position > cfg.EXTENDED_LIST_SIZE)
    (h2 : ¬ (dm.position > cfg.LIST_SIZE ∧ sub.progress ≠ 100))
    (h3 : ¬ (sub.progress > 100 ∨ sub.progress < dm.requirement))
    (hex : getExisting pl.id dm.name video2 db1.records = some r) :
    (r.status = RecordStatus.Rejected ∨ sub.progress ≤ r.progress →
      (processSubmission cfg validate true sub submitter db).1 =
        .error (.SubmissionExists r.status r.id) ∧
      (processSubmission cfg validate true sub submitter db).2.1.records = db.records) ∧
    (r.status ≠ RecordStatus.Rejected → r.progress < sub.progress →
      (processSubmission cfg validate true sub submitter db).1 =
        .ok (some { id := db1.nextRecordId, progress := sub.progress, video := video2,
                    status := RecordStatus.Submitted, player := pl.id,
                    submitter := submitter.id, demon := dm.name }) ∧
      (processSubmission cfg validate true sub submitter db).2.1.records =
        (if r.status = RecordStatus.Submitted then deleteRecord r.id db1.records
         else db1.records) ++
          [{ id := db1.nextRecordId, progress := sub.progress, video := video2,
             status := RecordStatus.Submitted, player := pl.id,
             submitter := submitter.id, demon := dm.name }]) := by
  have hrec : db1.records = db.records := by
    have h := playerByName_records sub.player db
    rw [hp] at h
    exact h
  constructor
  · intro hstale
    have hcond : ¬ (r.status ≠ RecordStatus.Rejected ∧ r.progress < sub.progress) := by
      rcases hstale with h | h
      · exact fun hc => hc.1 h
      · exact fun hc => absurd hc.2 (not_lt.mpr h)
    simp only [processSubmission, hb, hv, hp, hd, hpb, hex, Bool.false_eq_true, if_false]
    rw [if_neg h1, if_neg h2, if_neg h3, if_pos trivial, if_neg hcond]
    exact ⟨rfl, hrec⟩
  · intro hne hlt
    simp only [processSubmission, hb, hv, hp, hd, hpb, hex, hvo, Bool.false_eq_true,
      if_false]
    rw [if_neg h1, if_neg h2, if_neg h3, if_pos trivial, if_pos ⟨hne, hlt⟩]
    by_cases hs : r.status = RecordStatus.Submitted
    · rw [if_pos hs, if_pos hs]
      exact ⟨rfl, rfl⟩
    · rw [if_neg hs, if_neg hs]
      exact ⟨rfl, rfl⟩

/-- Witness for C6: progress 95 supersedes the Submitted progress-40 record — the old
row is deleted and a fresh Submitted row with progress 95 and the next id is inserted. -/
theorem processSubmission_duplicate_resolution_witness :
    (processSubmission sampleCfg okValidate true
      { progress := 95, player := "p1", demon := "Cataclysm", video := none,
        verify_only := false }
      subSubmitter sampleSubDb).1 =
      .ok (some { id := 11, progress := 95, video := none,
                  status := RecordStatus.Submitted, player := 1, submitter := 5,
                  demon := "Cataclysm" }) ∧
    (processSubmission sampleCfg okValidate true
      { progress := 95, player := "p1", demon := "Cataclysm", video := none,
        verify_only := false }
      subSubmitter sampleSubDb).2.1.records =
      deleteRecord 10 sampleSubDb.records ++
        [{ id := 11, progress := 95, video := none, status := RecordStatus.Submitted,
           player := 1, submitter := 5, demon := "Cataclysm" }] :=
  (processSubmission_duplicate_resolution sampleCfg okValidate
      { progress := 95, player := "p1", demon := "Cataclysm", video := none,
        verify_only := false }
      subSubmitter sampleSubDb none { id := 1, name := "p1", banned := false }
      sampleSubDb subDemon1
      { id := 10, progress := 40, video := none, status := RecordStatus.Submitted,
        player := 1, submitter := 5, demon := "Cataclysm" }
      rfl rfl rfl rfl rfl rfl (by decide) (by decide) (by decide) rfl).2
    (by decide) (by decide)

/-- C8: a verify-only submission neither inserts nor deletes any record, whatever the
outcome — the records table after the command is the records table before it. -/
theorem processSubmission_verify_only_frame (cfg : ListConfig)
    (validate : String → Except PointercrateError String) (poolOk : Bool)
    (sub : Submission) (submitter : Submitter) (db : SubDb)
    (hvo : sub.verify_only = true) :
    (processSubmission cfg validate poolOk sub submitter db).2.1.records = db.records := by
  unfold processSubmission
  simp only [hvo, if_true]
  repeat' split
  all_goals simp [playerByName_records]

/-- Witness for C8: a verify-only submission that would supersede the existing record
leaves the records table unchanged. -/
theorem processSubmission_verify_only_frame_witness :
    (processSubmission sampleCfg okValidate true
      { progress := 95, player := "p1", demon := "Cataclysm", video := none,
        verify_only := true }
      subSubmitter sampleSubDb).2.1.records = sampleSubDb.records :=
  processSubmission_verify_only_frame sampleCfg okValidate true
    { progress := 95, player := "p1", demon := "Cataclysm", video := none,
      verify_only := true }
    subSubmitter sampleSubDb rfl

/-- C3 (amended): for a non-banned submitter that supplies a video reference, the video
is validated before any player/demon resolution: a failing reference aborts the command
with the validator's error, the store untouched and no resolution dispatched; only when
the reference validates does resolution run, and an unknown demon then fails with
`ModelNotFound`. -/
theorem processSubmission_video_before_resolution (cfg : ListConfig)
    (validate : String → Except PointercrateError String) (poolOk : Bool)
    (sub : Submission) (submitter : Submitter) (db : SubDb) (v : String)
    (hb : submitter.banned = false) (hsv : sub.video = some v) :
    (∀ e : PointercrateError, validate v = .error e →
      processSubmission cfg validate poolOk sub submitter db =
        (.error e, db, [Event.videoValidate v])) ∧
    (∀ c : String, validate v = .ok c →
      demonByName sub.demon (playerByName sub.player db).2 =
        .error (.ModelNotFound "Demon" sub.demon) →
      processSubmission cfg validate poolOk sub submitter db =
        (.error (.ModelNotFound "Demon" sub.demon), (playerByName sub.player db).2,
         [Event.videoValidate v, Event.resolvePlayer sub.player,
          Event.resolveDemon sub.demon])) := by
  constructor
  · intro e he
    simp [processSubmission, hb, hsv, validateVideoOpt, he, Except.map]
  · intro c hc hd
    simp [processSubmission, hb, hsv, validateVideoOpt, hc, hd, Except.map]

/-- Video validator that rejects everything, standing for a reference the external
collaborator refuses. -/
def badValidate : String → Except PointercrateError String :=
  fun _ => .error (.InvalidUrl "no recognized scheme")

/-- Empty submission store. -/
def emptySubDb : SubDb :=
  { players := [], demons := [], records := [], nextPlayerId := 1, nextRecordId := 1 }

/-- C3 (counterexample): a submission naming an unknown demon together with a video
reference the validator refuses fails with the video error, not with `ModelNotFound`,
and the event trace holds the video-validation call and no resolution dispatch — the
video is passed to the collaborator before player and demon are resolved. -/
theorem processSubmission_resolution_order_counterexample :
    processSubmission sampleCfg badValidate true
      { progress := 100, player := "newplayer", demon := "NoSuchDemon",
        video := some "httpx", verify_only := false }
      subSubmitter emptySubDb =
      (.error (.InvalidUrl "no recognized scheme"), emptySubDb,
       [Event.videoValidate "httpx"]) ∧
    (.error (.InvalidUrl "no recognized scheme") :
        Except PointercrateError (Option RecordRow)) ≠
      .error (.ModelNotFound "Demon" "NoSuchDemon") :=
  ⟨rfl, by simp⟩

/-- Witness for C3 at a concrete refused reference. -/
theorem processSubmission_video_before_resolution_witness :
    processSubmission sampleCfg badValidate true
      { progress := 95, player := "p1", demon := "Cataclysm", video := some "clip",
        verify_only := false }
      subSubmitter sampleSubDb =
      (.error (.InvalidUrl "no recognized scheme"), sampleSubDb,
       [Event.videoValidate "clip"]) :=
  (processSubmission_video_before_resolution sampleCfg badValidate true
      { progress := 95, player := "p1", demon := "Cataclysm", video := some "clip",
        verify_only := false }
      subSubmitter sampleSubDb "clip" rfl rfl).1
    (.InvalidUrl "no recognized scheme") rfl

end Pointercrate
